import Mathlib

/-!
Verification model of the frame lifecycle and resource-rebuild logic of
`src/pba/gfx/vk_mvp.cpp` (struct `VulkanMvp::Impl`).

The embedding mirrors the source at the granularity the properties need:

* `OffscreenFrame`, `Impl` model the per-slot offscreen render target and the
  driver state (`frame_index`, the two `OffscreenFrame`s from
  `std::array<OffscreenFrame, k_frames_in_flight>` with
  `k_frames_in_flight = 2`, the `framebuffer_resized` flag).  Vulkan handles
  are modelled as `Bool` (`true` iff the handle is non-null), since the code
  only branches on null-ness before destruction.
* `DevState` models the per-slot `in_flight` fence status (`fence0`/`fence1`,
  `true` iff signaled) together with an abstract asynchronous device that
  acknowledges submissions on explicit completion steps (`pending0`/`pending1`
  count submitted-but-not-yet-completed work per slot).
* Each source function (`destroy_offscreen`, `create_offscreen_frame_resources`,
  `recreate_offscreen`, `build_ui`, `recreate_swapchain`, `draw_frame`) is a
  Lean function returning the new state together with the list of observable
  calls it performs (`Ev`), so that ordering properties are statements about
  traces.  `draw_frame` is split into its three phases (acquire,
  record+submit, present) exactly at the suspension points, and the small-step
  relation `Step` interleaves those phases with device completion steps; the
  atomic `draw_frame` is the composition of the phases.
* Window-size polling (`glfwGetFramebufferSize` and the zero-area wait loop at
  the top of `recreate_swapchain`) and the floating-point pixel-size
  computation at the top of `build_ui` are not modelled: the requested panel
  size enters `build_ui` directly as two naturals, and acquire/present results
  enter as oracle inputs, matching the spec's treatment of the window system
  and device as external collaborators.
-/

set_option maxHeartbeats 1600000

namespace VkMvp

/-- Constant `k_frames_in_flight = 2` from the source (vk_mvp.cpp). -/
def k_frames_in_flight : Nat := 2

/-- The `VkResult` values the frame loop branches on: `VK_SUCCESS`,
`VK_SUBOPTIMAL_KHR`, `VK_ERROR_OUT_OF_DATE_KHR`, and any other (fatal) value. -/
inductive VkRes
  | success
  | suboptimal
  | outOfDate
  | errorOther
deriving DecidableEq

/-- Observable calls performed by the modelled functions, in program order. -/
inductive Ev
  | deviceWaitIdle
  | destroySwapchainRes
  | createSwapchainRes
  | removeTexture (slot : Nat)
  | destroyFramebuffer (slot : Nat)
  | destroyDepthView (slot : Nat)
  | destroyDepthImage (slot : Nat)
  | destroyColorView (slot : Nat)
  | destroyColorImage (slot : Nat)
  | destroySampler
  | destroyRenderPass
  | createRenderPassAndSampler
  | createFrameResources (slot w h : Nat)
  | destroyCubePipeline
  | createCubePipeline
  | waitFence (slot : Nat)
  | resetFence (slot : Nat)
  | acquireImage
  | recordOffscreen (slot w h : Nat)
  | recordSwapchain (image : Nat)
  | submit (slot : Nat)
  | present (image : Nat)
  | uiReadTexture (slot : Nat)
deriving DecidableEq

/-- Struct `OffscreenFrame` from the source: handle fields are `true` iff
non-null; `width`/`height` default to 1 as in the member initializers. -/
structure OffscreenFrame where
  color_image : Bool
  color_alloc : Bool
  color_view : Bool
  depth_image : Bool
  depth_alloc : Bool
  depth_view : Bool
  framebuffer : Bool
  imgui_texture_set : Bool
  width : Nat
  height : Nat
deriving DecidableEq

/-- Default-initialized `OffscreenFrame` (all handles null, dimensions 1). -/
def OffscreenFrame.initDefault : OffscreenFrame :=
  ⟨false, false, false, false, false, false, false, false, 1, 1⟩

/-- The driver state of `VulkanMvp::Impl` relevant to the frame lifecycle:
`frame_index`, the two offscreen frames, the offscreen render pass and sampler
handles, the `framebuffer_resized` flag, and a counter of how many times the
swapchain has been (re)built (instrumentation counting `create_swapchain`
calls, used to observe recreation). -/
structure Impl where
  frame_index : Nat
  off0 : OffscreenFrame
  off1 : OffscreenFrame
  offscreen_render_pass : Bool
  offscreen_sampler : Bool
  framebuffer_resized : Bool
  swapchain_gen : Nat
deriving DecidableEq

/-- Indexing `offscreen[i]` for `i < k_frames_in_flight` (the source maintains
`frame_index` in `[0, k_frames_in_flight)`). -/
def Impl.offAt (st : Impl) (i : Nat) : OffscreenFrame :=
  if i = 0 then st.off0 else st.off1

/-- Per-slot `in_flight` fence status (`true` iff signaled) and the abstract
device's count of unacknowledged submissions per slot. -/
structure DevState where
  fence0 : Bool
  fence1 : Bool
  pending0 : Nat
  pending1 : Nat
deriving DecidableEq

/-- Fence status of slot `i`. -/
def DevState.fenceAt (d : DevState) (i : Nat) : Bool :=
  if i = 0 then d.fence0 else d.fence1

/-- Unacknowledged submissions of slot `i`. -/
def DevState.pendingAt (d : DevState) (i : Nat) : Nat :=
  if i = 0 then d.pending0 else d.pending1

/-- `vkResetFences` on slot `i`'s `in_flight` fence. -/
def DevState.resetFenceAt (d : DevState) (i : Nat) : DevState :=
  if i = 0 then { d with fence0 := false } else { d with fence1 := false }

/-- `vkQueueSubmit` with slot `i`'s `in_flight` fence: one more submission
becomes pending; the fence will be signaled when the device completes it. -/
def DevState.submitAt (d : DevState) (i : Nat) : DevState :=
  if i = 0 then { d with pending0 := d.pending0 + 1 }
  else { d with pending1 := d.pending1 + 1 }

/-- The device completes one pending submission of slot 0, signaling the fence
that was passed with it. -/
def DevState.completeSlot0 (d : DevState) : DevState :=
  { d with pending0 := d.pending0 - 1, fence0 := true }

/-- The device completes one pending submission of slot 1, signaling the fence
that was passed with it. -/
def DevState.completeSlot1 (d : DevState) : DevState :=
  { d with pending1 := d.pending1 - 1, fence1 := true }

/-- `vkDeviceWaitIdle`: all pending submissions complete; the fence of a slot
that had pending work is signaled by that completion, others are unchanged. -/
def DevState.waitIdle (d : DevState) : DevState :=
  ⟨if 1 ≤ d.pending0 then true else d.fence0,
   if 1 ≤ d.pending1 then true else d.fence1, 0, 0⟩

/-- State effect of the per-frame body of `destroy_offscreen`: every handle is
nulled and `width`/`height` are reset to 1. -/
def destroy_offscreen_frame (_f : OffscreenFrame) : OffscreenFrame :=
  ⟨false, false, false, false, false, false, false, false, 1, 1⟩

/-- Call trace of the per-frame body of `destroy_offscreen` for slot `i`:
the ImGui texture is removed first, then the framebuffer, the depth view and
image, and finally the color view and image, each guarded by a null check
exactly as in the source. -/
def destroy_offscreen_frame_trace (i : Nat) (f : OffscreenFrame) : List Ev :=
  (if f.imgui_texture_set then [Ev.removeTexture i] else []) ++
  (if f.framebuffer then [Ev.destroyFramebuffer i] else []) ++
  (if f.depth_view then [Ev.destroyDepthView i] else []) ++
  (if f.depth_image && f.depth_alloc then [Ev.destroyDepthImage i] else []) ++
  (if f.color_view then [Ev.destroyColorView i] else []) ++
  (if f.color_image && f.color_alloc then [Ev.destroyColorImage i] else [])

/-- `destroy_offscreen`: destroys both slots' frames in index order, then the
sampler and the offscreen render pass. -/
def destroy_offscreen (st : Impl) : Impl × List Ev :=
  ({ st with
      off0 := destroy_offscreen_frame st.off0
      off1 := destroy_offscreen_frame st.off1
      offscreen_sampler := false
      offscreen_render_pass := false },
   destroy_offscreen_frame_trace 0 st.off0 ++
   destroy_offscreen_frame_trace 1 st.off1 ++
   (if st.offscreen_sampler then [Ev.destroySampler] else []) ++
   (if st.offscreen_render_pass then [Ev.destroyRenderPass] else []))

/-- `create_offscreen_render_pass_and_sampler`. -/
def create_offscreen_render_pass_and_sampler (st : Impl) : Impl × List Ev :=
  ({ st with offscreen_render_pass := true, offscreen_sampler := true },
   [Ev.createRenderPassAndSampler])

/-- `create_offscreen_frame_resources(f, w, h)` for slot `i`: dimensions are
clamped with `std::max(1u, ·)`, all resources are allocated and the color view
is registered as an ImGui texture. -/
def create_offscreen_frame_resources (i w h : Nat) : OffscreenFrame × List Ev :=
  (⟨true, true, true, true, true, true, true, true, max 1 w, max 1 h⟩,
   [Ev.createFrameResources i (max 1 w) (max 1 h)])

/-- `recreate_offscreen(w, h)`: waits for the whole device to go idle, destroys
every slot's offscreen frame plus render pass and sampler, recreates the render
pass and sampler, recreates every slot's frame at `(w, h)`, and finally rebuilds
the cube pipeline (which references the offscreen render pass). -/
def recreate_offscreen (st : Impl) (dev : DevState) (w h : Nat) :
    Impl × DevState × List Ev :=
  let dev1 := dev.waitIdle
  let d := destroy_offscreen st
  let c := create_offscreen_render_pass_and_sampler d.1
  let f0 := create_offscreen_frame_resources 0 w h
  let f1 := create_offscreen_frame_resources 1 w h
  ({ c.1 with off0 := f0.1, off1 := f1.1 },
   dev1,
   Ev.deviceWaitIdle ::
     (d.2 ++ c.2 ++ f0.2 ++ f1.2 ++ [Ev.destroyCubePipeline, Ev.createCubePipeline]))

/-- `recreate_swapchain`: waits for the device to go idle, destroys and
recreates the swapchain resources, and clears `framebuffer_resized`.  (The
zero-area wait loop at its top polls the window and is not modelled.) -/
def recreate_swapchain (st : Impl) (dev : DevState) : Impl × DevState × List Ev :=
  ({ st with swapchain_gen := st.swapchain_gen + 1, framebuffer_resized := false },
   dev.waitIdle,
   [Ev.deviceWaitIdle, Ev.destroySwapchainRes, Ev.createSwapchainRes])

/-- `build_ui`: compares the UI panel's requested pixel size against the
current slot's offscreen frame and calls `recreate_offscreen` on mismatch, then
shows the current slot's texture handle if it is non-null. -/
def build_ui (st : Impl) (dev : DevState) (px_w px_h : Nat) :
    Impl × DevState × List Ev :=
  let cur := st.offAt st.frame_index
  let r :=
    if px_w ≠ cur.width ∨ px_h ≠ cur.height then recreate_offscreen st dev px_w px_h
    else (st, dev, [])
  let st1 := r.1
  let cur1 := st1.offAt st1.frame_index
  (st1, r.2.1,
   r.2.2 ++ (if cur1.imgui_texture_set then [Ev.uiReadTexture st1.frame_index] else []))

/-- Result of the acquire phase of `draw_frame` (everything up to and including
the `VK_ERROR_OUT_OF_DATE_KHR` early return and the fatal `vk_check`). -/
inductive AcquireOut
  | earlyReturn (st : Impl) (dev : DevState) (tr : List Ev)
  | proceed (st : Impl) (dev : DevState) (tr : List Ev)
  | fatal (dev : DevState) (tr : List Ev)
deriving DecidableEq

/-- Acquire phase of `draw_frame`: wait on the current slot's `in_flight`
fence, reset it, call `vkAcquireNextImageKHR`; on `VK_ERROR_OUT_OF_DATE_KHR`
recreate the swapchain and return early, on any result other than `VK_SUCCESS`
or `VK_SUBOPTIMAL_KHR` fail fatally, otherwise proceed. -/
def draw_frame_acquire (st : Impl) (dev : DevState) (acq : VkRes) : AcquireOut :=
  let fi := st.frame_index
  let dev1 := dev.resetFenceAt fi
  let tr0 := [Ev.waitFence fi, Ev.resetFence fi, Ev.acquireImage]
  if acq = VkRes.outOfDate then
    let r := recreate_swapchain st dev1
    AcquireOut.earlyReturn r.1 r.2.1 (tr0 ++ r.2.2)
  else if acq ≠ VkRes.success ∧ acq ≠ VkRes.suboptimal then
    AcquireOut.fatal dev1 tr0
  else
    AcquireOut.proceed st dev1 tr0

/-- Record-and-submit phase of `draw_frame`: records the 3D pass into
`offscreen[frame_index]`, records the UI pass into the acquired swapchain
framebuffer, and submits with the slot's `in_flight` fence. -/
def draw_frame_record_submit (st : Impl) (dev : DevState) (image : Nat) :
    Impl × DevState × List Ev :=
  let fi := st.frame_index
  let cur := st.offAt fi
  (st, dev.submitAt fi,
   [Ev.recordOffscreen fi cur.width cur.height, Ev.recordSwapchain image,
    Ev.submit fi])

/-- Present phase of `draw_frame`: `vkQueuePresentKHR`; on
`VK_ERROR_OUT_OF_DATE_KHR`, `VK_SUBOPTIMAL_KHR` or a pending resize flag the
swapchain is recreated immediately, on any other non-success result the frame
fails fatally (`none`); finally `frame_index` advances mod
`k_frames_in_flight`. -/
def draw_frame_present (st : Impl) (dev : DevState) (image : Nat) (pres : VkRes) :
    Option (Impl × DevState × List Ev) :=
  let tr0 := [Ev.present image]
  if pres = VkRes.outOfDate ∨ pres = VkRes.suboptimal ∨ st.framebuffer_resized then
    let r := recreate_swapchain st dev
    some ({ r.1 with frame_index := (r.1.frame_index + 1) % k_frames_in_flight },
          r.2.1, tr0 ++ r.2.2)
  else if pres ≠ VkRes.success then
    none
  else
    some ({ st with frame_index := (st.frame_index + 1) % k_frames_in_flight },
          dev, tr0)

/-- `draw_frame`, as the composition of its three phases; the acquire and
present results are oracle inputs from the device, and `none` models the fatal
`vk_check` exception path. -/
def draw_frame (st : Impl) (dev : DevState) (acq : VkRes) (image : Nat)
    (pres : VkRes) : Option (Impl × DevState × List Ev) :=
  match draw_frame_acquire st dev acq with
  | AcquireOut.earlyReturn st1 dev1 tr1 => some (st1, dev1, tr1)
  | AcquireOut.fatal _ _ => none
  | AcquireOut.proceed st1 dev1 tr1 =>
    let rs := draw_frame_record_submit st1 dev1 image
    match draw_frame_present rs.1 rs.2.1 image pres with
    | none => none
    | some out => some (out.1, out.2.1, tr1 ++ rs.2.2 ++ out.2.2)

/-- The oracle inputs of one iteration of `run_loop`: whether the resize
callback fired during event polling, the UI panel's requested pixel size, and
the device's acquire and present results. -/
structure IterInput where
  resize : Bool
  px_w : Nat
  px_h : Nat
  acq : VkRes
  image : Nat
  pres : VkRes

/-- One iteration of `run_loop`: poll events (possibly setting the resize
flag), `build_ui`, then `draw_frame`. -/
def loop_iter (st : Impl) (dev : DevState) (inp : IterInput) :
    Option (Impl × DevState × List Ev) :=
  let st0 := { st with framebuffer_resized := st.framebuffer_resized || inp.resize }
  let b := build_ui st0 dev inp.px_w inp.px_h
  match draw_frame b.1 b.2.1 inp.acq inp.image inp.pres with
  | none => none
  | some r => some (r.1, r.2.1, b.2.2 ++ r.2.2)

/-- Total wrapper of `loop_iter`: on the fatal path the process terminates, so
the state is frozen. -/
def loop_iter_total (s : Impl × DevState) (inp : IterInput) : Impl × DevState :=
  match loop_iter s.1 s.2 inp with
  | some r => (r.1, r.2.1)
  | none => s

/-- The frame loop over a list of per-iteration oracle inputs. -/
def runLoop (s : Impl × DevState) (inps : List IterInput) : Impl × DevState :=
  inps.foldl loop_iter_total s

/-- Driver state right after `init_all`: both offscreen frames created at
1280x720, `frame_index = 0`, no pending resize. -/
def init_impl : Impl :=
  { frame_index := 0
    off0 := (create_offscreen_frame_resources 0 1280 720).1
    off1 := (create_offscreen_frame_resources 1 1280 720).1
    offscreen_render_pass := true
    offscreen_sampler := true
    framebuffer_resized := false
    swapchain_gen := 0 }

/-- Device state right after `init_all`: both `in_flight` fences are created
signaled (`VK_FENCE_CREATE_SIGNALED_BIT`), nothing pending. -/
def init_dev : DevState := ⟨true, true, 0, 0⟩

/-- Control position of the CPU thread inside one `draw_frame` call. -/
inductive Phase
  | ready
  | toSubmit (image : Nat)
  | toPresent (image : Nat)
  | halted
deriving DecidableEq

/-- Whole-system state: driver state, fences plus abstract device, and the CPU
thread's control position. -/
structure Sys where
  impl : Impl
  dev : DevState
  phase : Phase
deriving DecidableEq

/-- The system state at the top of the first loop iteration. -/
def init_sys : Sys := ⟨init_impl, init_dev, Phase.ready⟩

/-- Small-step semantics of the frame loop interleaved with the asynchronous
device: device completion steps (`tick0`/`tick1`) and the resize callback can
interleave with the phases of `draw_frame`; the acquire phase is enabled only
once the current slot's `in_flight` fence is signaled (the `vkWaitForFences`
gate). -/
inductive Step : Sys → Sys → Prop
  | tick0 (s : Sys) :
      1 ≤ s.dev.pending0 → Step s ⟨s.impl, s.dev.completeSlot0, s.phase⟩
  | tick1 (s : Sys) :
      1 ≤ s.dev.pending1 → Step s ⟨s.impl, s.dev.completeSlot1, s.phase⟩
  | resizeEvent (s : Sys) :
      Step s ⟨{ s.impl with framebuffer_resized := true }, s.dev, s.phase⟩
  | buildUi (s : Sys) (pw ph : Nat) :
      s.phase = Phase.ready →
      Step s ⟨(build_ui s.impl s.dev pw ph).1, (build_ui s.impl s.dev pw ph).2.1,
              Phase.ready⟩
  | acquireEarly (s : Sys) (st1 : Impl) (dev1 : DevState) (tr : List Ev) :
      s.phase = Phase.ready → s.dev.fenceAt s.impl.frame_index = true →
      draw_frame_acquire s.impl s.dev VkRes.outOfDate =
        AcquireOut.earlyReturn st1 dev1 tr →
      Step s ⟨st1, dev1, Phase.ready⟩
  | acquireProceed (s : Sys) (acq : VkRes) (image : Nat) (st1 : Impl)
      (dev1 : DevState) (tr : List Ev) :
      s.phase = Phase.ready → s.dev.fenceAt s.impl.frame_index = true →
      draw_frame_acquire s.impl s.dev acq = AcquireOut.proceed st1 dev1 tr →
      Step s ⟨st1, dev1, Phase.toSubmit image⟩
  | acquireFatal (s : Sys) (acq : VkRes) (dev1 : DevState) (tr : List Ev) :
      s.phase = Phase.ready → s.dev.fenceAt s.impl.frame_index = true →
      draw_frame_acquire s.impl s.dev acq = AcquireOut.fatal dev1 tr →
      Step s ⟨s.impl, dev1, Phase.halted⟩
  | submitRecord (s : Sys) (image : Nat) :
      s.phase = Phase.toSubmit image →
      Step s ⟨(draw_frame_record_submit s.impl s.dev image).1,
              (draw_frame_record_submit s.impl s.dev image).2.1,
              Phase.toPresent image⟩
  | presentOk (s : Sys) (image : Nat) (pres : VkRes)
      (out : Impl × DevState × List Ev) :
      s.phase = Phase.toPresent image →
      draw_frame_present s.impl s.dev image pres = some out →
      Step s ⟨out.1, out.2.1, Phase.ready⟩
  | presentFatal (s : Sys) (image : Nat) (pres : VkRes) :
      s.phase = Phase.toPresent image →
      draw_frame_present s.impl s.dev image pres = none →
      Step s ⟨s.impl, s.dev, Phase.halted⟩

/-- Reflexive-transitive closure of `Step`. -/
inductive Reaches : Sys → Sys → Prop
  | refl (s : Sys) : Reaches s s
  | tail (s t u : Sys) : Reaches s t → Step t u → Reaches s u

/-- Slot indices of the `recordOffscreen` events of a trace. -/
def recordOffscreenSlots (tr : List Ev) : List Nat :=
  tr.filterMap fun e =>
    match e with
    | Ev.recordOffscreen i _ _ => some i
    | _ => none

/-- Slot indices of the `uiReadTexture` events of a trace. -/
def uiReadSlots (tr : List Ev) : List Nat :=
  tr.filterMap fun e =>
    match e with
    | Ev.uiReadTexture i => some i
    | _ => none

/-- `firstToThen a b l` holds when the first occurrence of `a` in `l` is
followed (strictly later in `l`) by an occurrence of `b`. -/
def firstToThen (a b : Ev) : List Ev → Bool
  | [] => false
  | x :: xs => if x = a then decide (b ∈ xs) else firstToThen a b xs

/-- Events that release or unregister an existing resource. -/
def isDestroyEv : Ev → Bool
  | Ev.destroySwapchainRes => true
  | Ev.removeTexture _ => true
  | Ev.destroyFramebuffer _ => true
  | Ev.destroyDepthView _ => true
  | Ev.destroyDepthImage _ => true
  | Ev.destroyColorView _ => true
  | Ev.destroyColorImage _ => true
  | Ev.destroySampler => true
  | Ev.destroyRenderPass => true
  | Ev.destroyCubePipeline => true
  | _ => false

/-- Both offscreen frames have nonzero dimensions. -/
def OffDimsOK (st : Impl) : Prop :=
  1 ≤ st.off0.width ∧ 1 ≤ st.off0.height ∧ 1 ≤ st.off1.width ∧ 1 ≤ st.off1.height

/-- Inductive invariant for the backpressure property: `frame_index` stays in
range, a signaled fence means its slot has no unacknowledged submission, each
slot has at most one unacknowledged submission, and between fence reset and
submission the current slot's fence is down with nothing pending. -/
def DevInv (s : Sys) : Prop :=
  s.impl.frame_index < k_frames_in_flight ∧
  (s.dev.fence0 = true → s.dev.pending0 = 0) ∧
  (s.dev.fence1 = true → s.dev.pending1 = 0) ∧
  s.dev.pending0 ≤ 1 ∧ s.dev.pending1 ≤ 1 ∧
  (∀ image, s.phase = Phase.toSubmit image →
    s.dev.fenceAt s.impl.frame_index = false ∧
    s.dev.pendingAt s.impl.frame_index = 0)

/-- The state of being permanently stuck before the slot-0 fence wait: the
thread is at the top of the loop on slot 0, whose fence is unsignaled with no
submission pending to ever signal it. -/
def StuckInv (s : Sys) : Prop :=
  s.phase = Phase.ready ∧ s.impl.frame_index = 0 ∧
  s.dev.fence0 = false ∧ s.dev.pending0 = 0

/-- Driver state after the acquire phase of the first iteration returns
`VK_ERROR_OUT_OF_DATE_KHR`: the swapchain was rebuilt once, nothing else
changed. -/
def stale_impl : Impl := { init_impl with swapchain_gen := 1 }

/-- Device state at that same point: slot 0's fence was reset before the stale
result was seen and no submission was made that could signal it again. -/
def stale_dev : DevState := ⟨false, true, 0, 0⟩

/-- System state right after the first iteration's early return on a stale
acquire. -/
def stale_sys : Sys := ⟨stale_impl, stale_dev, Phase.ready⟩

/-- The result of a single `draw_frame` from the post-`init_all` state with
image index 0 and the given acquire/present oracle results (used to evaluate
the model at concrete inputs). -/
def draw_out (acq pres : VkRes) : Impl × DevState × List Ev :=
  (draw_frame init_impl init_dev acq 0 pres).getD (init_impl, init_dev, [])

/-- A fully successful iteration input (panel size matching the initial
targets, successful acquire and present). -/
def iter_ok : IterInput := ⟨false, 1280, 720, VkRes.success, 0, VkRes.success⟩

/-- Result of running one successful iteration from the post-`init_all`
state. -/
def iter_ok_out : Impl × DevState × List Ev :=
  (loop_iter init_impl init_dev iter_ok).getD (init_impl, init_dev, [])

theorem firstToThen_append_left (a b : Ev) (l r : List Ev)
    (h : firstToThen a b l = true) : firstToThen a b (l ++ r) = true := by
  induction l with
  | nil => simp [firstToThen] at h
  | cons x xs ih =>
    have h' : (if x = a then decide (b ∈ xs) else firstToThen a b xs) = true := h
    show (if x = a then decide (b ∈ xs ++ r) else firstToThen a b (xs ++ r)) = true
    by_cases hx : x = a
    · rw [if_pos hx] at h' ⊢
      exact decide_eq_true (List.mem_append_left r (of_decide_eq_true h'))
    · rw [if_neg hx] at h' ⊢
      exact ih h'

theorem firstToThen_append_skip (a b : Ev) (l r : List Ev) (h : a ∉ l) :
    firstToThen a b (l ++ r) = firstToThen a b r := by
  induction l with
  | nil => rfl
  | cons x xs ih =>
    simp only [List.mem_cons, not_or] at h
    show (if x = a then decide (b ∈ xs ++ r) else firstToThen a b (xs ++ r)) =
      firstToThen a b r
    rw [if_neg (fun hxa => h.1 hxa.symm)]
    exact ih h.2

theorem firstToThen_destroy_frame_trace (i : Nat) (f : OffscreenFrame)
    (ht : f.imgui_texture_set = true) (hc : f.color_image = true)
    (ha : f.color_alloc = true) :
    firstToThen (Ev.removeTexture i) (Ev.destroyColorImage i)
      (destroy_offscreen_frame_trace i f) = true := by
  cases hfb : f.framebuffer <;> cases hdv : f.depth_view <;>
    cases hdi : f.depth_image <;> cases hda : f.depth_alloc <;>
      cases hcv : f.color_view <;>
        simp [destroy_offscreen_frame_trace, ht, hc, ha, hfb, hdv, hdi, hda, hcv,
          firstToThen]

theorem removeTexture_notMem_destroy_frame_trace (i j : Nat) (f : OffscreenFrame)
    (hij : i ≠ j) :
    Ev.removeTexture i ∉ destroy_offscreen_frame_trace j f := by
  simp [destroy_offscreen_frame_trace, hij]

/-- C7: whenever an `OffscreenFrame` holding a registered ImGui texture and a
backing color image is destroyed by `destroy_offscreen`, the
`ImGui_ImplVulkan_RemoveTexture` call for that slot strictly precedes the
`vmaDestroyImage` call for that slot's color image in the captured call
order. -/
theorem destroy_unregisters_texture_before_color_free (st : Impl) (i : Nat)
    (hi : i < k_frames_in_flight)
    (ht : (st.offAt i).imgui_texture_set = true)
    (hc : (st.offAt i).color_image = true)
    (ha : (st.offAt i).color_alloc = true) :
    firstToThen (Ev.removeTexture i) (Ev.destroyColorImage i)
      (destroy_offscreen st).2 = true := by
  have h2 : i = 0 ∨ i = 1 := by
    simp only [k_frames_in_flight] at hi
    omega
  rcases h2 with rfl | rfl
  · simp only [Impl.offAt, if_pos rfl] at ht hc ha
    simp only [destroy_offscreen]
    exact firstToThen_append_left _ _ _ _
      (firstToThen_append_left _ _ _ _
        (firstToThen_append_left _ _ _ _
          (firstToThen_destroy_frame_trace 0 st.off0 ht hc ha)))
  · simp only [Impl.offAt, if_neg (by omega : (1 : Nat) ≠ 0)] at ht hc ha
    simp only [destroy_offscreen]
    refine firstToThen_append_left _ _ _ _ (firstToThen_append_left _ _ _ _ ?_)
    rw [firstToThen_append_skip _ _ _ _
      (removeTexture_notMem_destroy_frame_trace 1 0 st.off0 (by omega))]
    exact firstToThen_destroy_frame_trace 1 st.off1 ht hc ha

/-- Witness for C7 at the post-`init_all` state, slot 0. -/
theorem destroy_unregisters_texture_before_color_free_witness :
    (init_impl.offAt 0).imgui_texture_set = true ∧
    (init_impl.offAt 0).color_image = true ∧
    firstToThen (Ev.removeTexture 0) (Ev.destroyColorImage 0)
      (destroy_offscreen init_impl).2 = true :=
  ⟨by decide, by decide,
   destroy_unregisters_texture_before_color_free init_impl 0 (by decide)
     (by decide) (by decide) (by decide)⟩

theorem draw_frame_acquire_proceed (st : Impl) (dev : DevState) (acq : VkRes)
    (h : acq = VkRes.success ∨ acq = VkRes.suboptimal) :
    draw_frame_acquire st dev acq =
      AcquireOut.proceed st (dev.resetFenceAt st.frame_index)
        [Ev.waitFence st.frame_index, Ev.resetFence st.frame_index,
         Ev.acquireImage] := by
  rcases h with rfl | rfl <;> rfl

theorem draw_frame_acquire_ood (st : Impl) (dev : DevState) :
    draw_frame_acquire st dev VkRes.outOfDate =
      AcquireOut.earlyReturn
        { st with swapchain_gen := st.swapchain_gen + 1,
                  framebuffer_resized := false }
        (dev.resetFenceAt st.frame_index).waitIdle
        [Ev.waitFence st.frame_index, Ev.resetFence st.frame_index,
         Ev.acquireImage, Ev.deviceWaitIdle, Ev.destroySwapchainRes,
         Ev.createSwapchainRes] := rfl

theorem draw_frame_acquire_err (st : Impl) (dev : DevState) :
    draw_frame_acquire st dev VkRes.errorOther =
      AcquireOut.fatal (dev.resetFenceAt st.frame_index)
        [Ev.waitFence st.frame_index, Ev.resetFence st.frame_index,
         Ev.acquireImage] := rfl

theorem draw_frame_present_stale (st : Impl) (dev : DevState) (image : Nat)
    (pres : VkRes)
    (h : pres = VkRes.outOfDate ∨ pres = VkRes.suboptimal ∨
      st.framebuffer_resized = true) :
    draw_frame_present st dev image pres =
      some ({ st with swapchain_gen := st.swapchain_gen + 1,
                      framebuffer_resized := false,
                      frame_index := (st.frame_index + 1) % k_frames_in_flight },
            dev.waitIdle,
            [Ev.present image, Ev.deviceWaitIdle, Ev.destroySwapchainRes,
             Ev.createSwapchainRes]) := by
  simp only [draw_frame_present, recreate_swapchain]
  rw [if_pos h]
  rfl

theorem draw_frame_present_ok (st : Impl) (dev : DevState) (image : Nat)
    (hrs : st.framebuffer_resized = false) :
    draw_frame_present st dev image VkRes.success =
      some ({ st with frame_index := (st.frame_index + 1) % k_frames_in_flight },
            dev, [Ev.present image]) := by
  simp only [draw_frame_present]
  rw [if_neg (by simp [hrs])]
  rfl

theorem draw_frame_present_err (st : Impl) (dev : DevState) (image : Nat)
    (pres : VkRes)
    (hc : ¬(pres = VkRes.outOfDate ∨ pres = VkRes.suboptimal ∨
      st.framebuffer_resized = true))
    (hp : pres ≠ VkRes.success) :
    draw_frame_present st dev image pres = none := by
  simp only [draw_frame_present]
  rw [if_neg hc, if_pos hp]

/-- C1 counterexample: at the post-`init_all` state the current slot is 0, yet
requesting a 100x100 panel from `build_ui` changes slot 1's offscreen target
in the same iteration (its width goes from 1280 to 100), so the rebuild does
not affect only the current slot's target. -/
theorem offscreen_rebuild_touches_other_slot :
    init_impl.frame_index = 0 ∧ init_impl.off1.width = 1280 ∧
    (build_ui init_impl init_dev 100 100).1.off1.width = 100 :=
  ⟨rfl, by decide, by decide⟩

/-- C1 amended: when the UI-requested panel size differs from the active
slot's offscreen target size, `build_ui` rebuilds the offscreen targets of ALL
slots at the (clamped) new size within that same iteration; no slot is left to
rebuild lazily on its own turn. -/
theorem offscreen_rebuild_covers_all_slots (st : Impl) (dev : DevState)
    (pw ph : Nat)
    (hdiff : pw ≠ (st.offAt st.frame_index).width ∨
      ph ≠ (st.offAt st.frame_index).height) :
    (build_ui st dev pw ph).1.off0.width = max 1 pw ∧
    (build_ui st dev pw ph).1.off0.height = max 1 ph ∧
    (build_ui st dev pw ph).1.off1.width = max 1 pw ∧
    (build_ui st dev pw ph).1.off1.height = max 1 ph := by
  simp only [build_ui]
  rw [if_pos hdiff]
  simp [recreate_offscreen, create_offscreen_frame_resources]

/-- Witness for the amended C1: the post-`init_all` state with a 100x100
request. -/
theorem offscreen_rebuild_covers_all_slots_witness :
    ((100 : Nat) ≠ (init_impl.offAt init_impl.frame_index).width ∨
      (100 : Nat) ≠ (init_impl.offAt init_impl.frame_index).height) ∧
    (build_ui init_impl init_dev 100 100).1.off0.width = max 1 100 ∧
    (build_ui init_impl init_dev 100 100).1.off0.height = max 1 100 ∧
    (build_ui init_impl init_dev 100 100).1.off1.width = max 1 100 ∧
    (build_ui init_impl init_dev 100 100).1.off1.height = max 1 100 :=
  ⟨Or.inl (by decide),
   offscreen_rebuild_covers_all_slots init_impl init_dev 100 100
     (Or.inl (by decide))⟩

/-- C2 counterexample: in the iteration whose present call reports
out-of-date, the swapchain is destroyed and recreated within that same
iteration (the trace contains both calls and the build counter advances), not
on the next iteration. -/
theorem present_stale_recreates_same_iteration_cex :
    draw_frame init_impl init_dev VkRes.success 0 VkRes.outOfDate =
      some (draw_out VkRes.success VkRes.outOfDate) ∧
    Ev.destroySwapchainRes ∈ (draw_out VkRes.success VkRes.outOfDate).2.2 ∧
    Ev.createSwapchainRes ∈ (draw_out VkRes.success VkRes.outOfDate).2.2 ∧
    (draw_out VkRes.success VkRes.outOfDate).1.swapchain_gen =
      init_impl.swapchain_gen + 1 :=
  ⟨by decide, by decide, by decide, by decide⟩

/-- C2 amended: whenever the present call reports the surface stale
(out-of-date or suboptimal) or the resize flag is set, `draw_frame` tears down
and recreates the swapchain immediately within that same iteration, preceded
by a full device-idle wait (rather than deferring the rebuild to the start of
the next iteration). -/
theorem present_stale_recreates_same_iteration (st : Impl) (dev : DevState)
    (image : Nat) (pres : VkRes) (out : Impl × DevState × List Ev)
    (hstale : pres = VkRes.outOfDate ∨ pres = VkRes.suboptimal ∨
      st.framebuffer_resized = true)
    (hout : draw_frame st dev VkRes.success image pres = some out) :
    Ev.destroySwapchainRes ∈ out.2.2 ∧ Ev.createSwapchainRes ∈ out.2.2 ∧
    out.1.swapchain_gen = st.swapchain_gen + 1 ∧
    out.1.framebuffer_resized = false ∧
    firstToThen Ev.deviceWaitIdle Ev.destroySwapchainRes out.2.2 = true := by
  simp only [draw_frame, draw_frame_acquire_proceed st dev VkRes.success
    (Or.inl rfl), draw_frame_record_submit] at hout
  rw [draw_frame_present_stale _ _ _ _ hstale] at hout
  injection hout with hout
  subst hout
  refine ⟨by simp, by simp, rfl, rfl, ?_⟩
  simp [firstToThen]

/-- Witness for the amended C2: present reports out-of-date at the
post-`init_all` state. -/
theorem present_stale_recreates_same_iteration_witness :
    (VkRes.outOfDate = VkRes.outOfDate ∨ VkRes.outOfDate = VkRes.suboptimal ∨
      init_impl.framebuffer_resized = true) ∧
    (Ev.destroySwapchainRes ∈ (draw_out VkRes.success VkRes.outOfDate).2.2 ∧
     Ev.createSwapchainRes ∈ (draw_out VkRes.success VkRes.outOfDate).2.2 ∧
     (draw_out VkRes.success VkRes.outOfDate).1.swapchain_gen =
       init_impl.swapchain_gen + 1 ∧
     (draw_out VkRes.success VkRes.outOfDate).1.framebuffer_resized = false ∧
     firstToThen Ev.deviceWaitIdle Ev.destroySwapchainRes
       (draw_out VkRes.success VkRes.outOfDate).2.2 = true) :=
  ⟨Or.inl rfl,
   present_stale_recreates_same_iteration init_impl init_dev 0 VkRes.outOfDate
     (draw_out VkRes.success VkRes.outOfDate) (Or.inl rfl) (by decide)⟩

/-- C3 counterexample: the iteration whose acquire reports out-of-date skips
presentation (its trace is exactly the fence wait/reset, the acquire and the
swapchain rebuild, with no present call) and leaves `frame_index` unchanged at
0, so the frame sequence number does not advance on that completed
iteration. -/
theorem frame_index_unchanged_on_stale_acquire_cex :
    draw_frame init_impl init_dev VkRes.outOfDate 0 VkRes.success =
      some (draw_out VkRes.outOfDate VkRes.success) ∧
    init_impl.frame_index = 0 ∧
    (draw_out VkRes.outOfDate VkRes.success).1.frame_index = 0 ∧
    (draw_out VkRes.outOfDate VkRes.success).2.2 =
      [Ev.waitFence 0, Ev.resetFence 0, Ev.acquireImage, Ev.deviceWaitIdle,
       Ev.destroySwapchainRes, Ev.createSwapchainRes] :=
  ⟨by decide, rfl, by decide, by decide⟩

/-- C3 amended: `frame_index` advances exactly once per iteration that reaches
the present call and is left unchanged by an iteration that early-returns to
rebuild a stale surface after acquire. -/
theorem frame_index_advance (st : Impl) (dev : DevState) (acq : VkRes)
    (image : Nat) (pres : VkRes) (out : Impl × DevState × List Ev)
    (hout : draw_frame st dev acq image pres = some out) :
    out.1.frame_index =
      if acq = VkRes.outOfDate then st.frame_index
      else (st.frame_index + 1) % k_frames_in_flight := by
  have hmain : ∀ hacq : acq = VkRes.success ∨ acq = VkRes.suboptimal,
      out.1.frame_index = (st.frame_index + 1) % k_frames_in_flight := by
    intro hacq
    simp only [draw_frame, draw_frame_acquire_proceed st dev acq hacq,
      draw_frame_record_submit] at hout
    by_cases hc : pres = VkRes.outOfDate ∨ pres = VkRes.suboptimal ∨
        st.framebuffer_resized = true
    · rw [draw_frame_present_stale _ _ _ _ hc] at hout
      injection hout with hout
      subst hout
      rfl
    · by_cases hp : pres = VkRes.success
      · subst hp
        have hrs : st.framebuffer_resized = false := by
          rcases hb : st.framebuffer_resized with _ | _
          · rfl
          · exact absurd (Or.inr (Or.inr hb)) hc
        rw [draw_frame_present_ok st _ image hrs] at hout
        injection hout with hout
        subst hout
        rfl
      · rw [draw_frame_present_err st _ image pres hc hp] at hout
        cases hout
  cases acq with
  | success => rw [if_neg (by simp)]; exact hmain (Or.inl rfl)
  | suboptimal => rw [if_neg (by simp)]; exact hmain (Or.inr rfl)
  | outOfDate =>
    rw [if_pos rfl]
    simp only [draw_frame, draw_frame_acquire_ood] at hout
    injection hout with hout
    subst hout
    rfl
  | errorOther =>
    simp only [draw_frame, draw_frame_acquire_err] at hout
    cases hout

/-- Witness for the amended C3: one successful iteration advances
`frame_index` from 0 to 1. -/
theorem frame_index_advance_witness :
    (draw_out VkRes.success VkRes.success).1.frame_index =
      if VkRes.success = VkRes.outOfDate then init_impl.frame_index
      else (init_impl.frame_index + 1) % k_frames_in_flight :=
  frame_index_advance init_impl init_dev VkRes.success 0 VkRes.success
    (draw_out VkRes.success VkRes.success) (by decide)

/-- C10: a suboptimal acquire result is treated exactly like success: the
iteration still records, submits and presents, and (when the present result is
success and no resize is pending) no swapchain rebuild happens in that
iteration. -/
theorem suboptimal_acquire_proceeds (st : Impl) (dev : DevState) (image : Nat)
    (pres : VkRes) :
    draw_frame st dev VkRes.suboptimal image pres =
      draw_frame st dev VkRes.success image pres ∧
    (∀ out, st.framebuffer_resized = false → pres = VkRes.success →
      draw_frame st dev VkRes.suboptimal image pres = some out →
      Ev.submit st.frame_index ∈ out.2.2 ∧ Ev.present image ∈ out.2.2 ∧
      Ev.destroySwapchainRes ∉ out.2.2) := by
  constructor
  · simp only [draw_frame,
      draw_frame_acquire_proceed st dev VkRes.suboptimal (Or.inr rfl),
      draw_frame_acquire_proceed st dev VkRes.success (Or.inl rfl)]
  · intro out hrs hp hout
    subst hp
    simp only [draw_frame,
      draw_frame_acquire_proceed st dev VkRes.suboptimal (Or.inr rfl),
      draw_frame_record_submit] at hout
    rw [draw_frame_present_ok st _ image hrs] at hout
    injection hout with hout
    subst hout
    refine ⟨by simp, by simp, by simp⟩

/-- Witness for C10 at the post-`init_all` state. -/
theorem suboptimal_acquire_proceeds_witness :
    (draw_frame init_impl init_dev VkRes.suboptimal 0 VkRes.success =
      draw_frame init_impl init_dev VkRes.success 0 VkRes.success) ∧
    (Ev.submit init_impl.frame_index ∈
      (draw_out VkRes.suboptimal VkRes.success).2.2 ∧
     Ev.present 0 ∈ (draw_out VkRes.suboptimal VkRes.success).2.2 ∧
     Ev.destroySwapchainRes ∉ (draw_out VkRes.suboptimal VkRes.success).2.2) :=
  ⟨(suboptimal_acquire_proceeds init_impl init_dev 0 VkRes.success).1,
   (suboptimal_acquire_proceeds init_impl init_dev 0 VkRes.success).2
     (draw_out VkRes.suboptimal VkRes.success) rfl rfl (by decide)⟩

/-- C9: every offscreen-target recreation waits for the whole device to go
idle before destroying anything: in the call trace of `recreate_offscreen`
(the only recreation path, reached from `build_ui` on a panel resize), every
destroy or unregister call is strictly preceded by a `vkDeviceWaitIdle`
call. -/
theorem recreate_offscreen_waits_idle_before_destroy (st : Impl)
    (dev : DevState) (w h n : Nat) (e : Ev)
    (hn : ((recreate_offscreen st dev w h).2.2).get? n = some e)
    (hd : isDestroyEv e = true) :
    ∃ m, m < n ∧
      ((recreate_offscreen st dev w h).2.2).get? m = some Ev.deviceWaitIdle := by
  cases n with
  | zero =>
    have h0 : ((recreate_offscreen st dev w h).2.2).get? 0 =
        some Ev.deviceWaitIdle := rfl
    rw [h0] at hn
    injection hn with hn
    rw [← hn] at hd
    simp [isDestroyEv] at hd
  | succ k =>
    exact ⟨0, Nat.succ_pos k, rfl⟩

/-- Witness for C9: the destroy call at position 1 of a concrete recreation
trace is preceded by the `vkDeviceWaitIdle` at position 0. -/
theorem recreate_offscreen_waits_idle_before_destroy_witness :
    ((recreate_offscreen init_impl init_dev 64 64).2.2).get? 1 =
      some (Ev.removeTexture 0) ∧
    isDestroyEv (Ev.removeTexture 0) = true ∧
    ∃ m, m < 1 ∧ ((recreate_offscreen init_impl init_dev 64 64).2.2).get? m =
      some Ev.deviceWaitIdle :=
  ⟨by decide, by decide,
   recreate_offscreen_waits_idle_before_destroy init_impl init_dev 64 64 1
     (Ev.removeTexture 0) (by decide) (by decide)⟩

theorem build_ui_dims (st : Impl) (dev : DevState) (pw ph : Nat)
    (h : OffDimsOK st) : OffDimsOK (build_ui st dev pw ph).1 := by
  simp only [build_ui]
  by_cases hc : pw ≠ (st.offAt st.frame_index).width ∨
    ph ≠ (st.offAt st.frame_index).height
  · rw [if_pos hc]
    simp only [recreate_offscreen, create_offscreen_frame_resources, OffDimsOK]
    refine ⟨?_, ?_, ?_, ?_⟩ <;> omega
  · rw [if_neg hc]
    exact h

theorem draw_frame_off_eq (st : Impl) (dev : DevState) (acq : VkRes)
    (image : Nat) (pres : VkRes) (out : Impl × DevState × List Ev)
    (hout : draw_frame st dev acq image pres = some out) :
    out.1.off0 = st.off0 ∧ out.1.off1 = st.off1 := by
  have hmain : ∀ _hacq : acq = VkRes.success ∨ acq = VkRes.suboptimal,
      out.1.off0 = st.off0 ∧ out.1.off1 = st.off1 := by
    intro hacq
    simp only [draw_frame, draw_frame_acquire_proceed st dev acq hacq,
      draw_frame_record_submit] at hout
    by_cases hc : pres = VkRes.outOfDate ∨ pres = VkRes.suboptimal ∨
        st.framebuffer_resized = true
    · rw [draw_frame_present_stale _ _ _ _ hc] at hout
      injection hout with hout
      subst hout
      exact ⟨rfl, rfl⟩
    · by_cases hp : pres = VkRes.success
      · subst hp
        have hrs : st.framebuffer_resized = false := by
          rcases hb : st.framebuffer_resized with _ | _
          · rfl
          · exact absurd (Or.inr (Or.inr hb)) hc
        rw [draw_frame_present_ok st _ image hrs] at hout
        injection hout with hout
        subst hout
        exact ⟨rfl, rfl⟩
      · rw [draw_frame_present_err st _ image pres hc hp] at hout
        cases hout
  cases acq with
  | success => exact hmain (Or.inl rfl)
  | suboptimal => exact hmain (Or.inr rfl)
  | outOfDate =>
    simp only [draw_frame, draw_frame_acquire_ood] at hout
    injection hout with hout
    subst hout
    exact ⟨rfl, rfl⟩
  | errorOther =>
    simp only [draw_frame, draw_frame_acquire_err] at hout
    cases hout

theorem loop_iter_total_dims (s : Impl × DevState) (inp : IterInput)
    (h : OffDimsOK s.1) : OffDimsOK (loop_iter_total s inp).1 := by
  have hb : OffDimsOK (build_ui
      { s.1 with framebuffer_resized := s.1.framebuffer_resized || inp.resize }
      s.2 inp.px_w inp.px_h).1 :=
    build_ui_dims _ s.2 inp.px_w inp.px_h h
  simp only [loop_iter_total, loop_iter]
  cases hdf : draw_frame
      (build_ui { s.1 with
          framebuffer_resized := s.1.framebuffer_resized || inp.resize }
        s.2 inp.px_w inp.px_h).1
      (build_ui { s.1 with
          framebuffer_resized := s.1.framebuffer_resized || inp.resize }
        s.2 inp.px_w inp.px_h).2.1
      inp.acq inp.image inp.pres with
  | none => exact h
  | some r =>
    obtain ⟨h0, h1⟩ := draw_frame_off_eq _ _ _ _ _ _ hdf
    simp only [OffDimsOK, h0, h1] at *
    exact hb

theorem runLoop_dims (inps : List IterInput) (s : Impl × DevState)
    (h : OffDimsOK s.1) : OffDimsOK (runLoop s inps).1 := by
  induction inps generalizing s with
  | nil => exact h
  | cons i is ih => exact ih _ (loop_iter_total_dims s i h)

/-- C8: every offscreen target has width ≥ 1 and height ≥ 1 at every point of
its lifetime: `create_offscreen_frame_resources` clamps both requested
dimensions with `max 1`, the default-initialized frame is 1x1, destroying a
frame resets its dimensions to 1, the post-`init_all` frames are nonzero-sized,
and both slots' dimensions stay ≥ 1 after every run of the frame loop from the
initial state. -/
theorem offscreen_dims_never_zero :
    (∀ i w h, 1 ≤ (create_offscreen_frame_resources i w h).1.width ∧
      1 ≤ (create_offscreen_frame_resources i w h).1.height ∧
      (create_offscreen_frame_resources i w h).1.width = max 1 w ∧
      (create_offscreen_frame_resources i w h).1.height = max 1 h) ∧
    OffscreenFrame.initDefault.width = 1 ∧
    OffscreenFrame.initDefault.height = 1 ∧
    (∀ f, (destroy_offscreen_frame f).width = 1 ∧
      (destroy_offscreen_frame f).height = 1) ∧
    OffDimsOK init_impl ∧
    (∀ inps : List IterInput, OffDimsOK (runLoop (init_impl, init_dev) inps).1) := by
  refine ⟨?_, rfl, rfl, fun f => ⟨rfl, rfl⟩, by unfold OffDimsOK; decide, ?_⟩
  · intro i w h
    refine ⟨?_, ?_, rfl, rfl⟩ <;>
      simp only [create_offscreen_frame_resources] <;> omega
  · intro inps
    exact runLoop_dims inps _ (by unfold OffDimsOK; decide)


theorem recordOffscreenSlots_append (l r : List Ev) :
    recordOffscreenSlots (l ++ r) =
      recordOffscreenSlots l ++ recordOffscreenSlots r := by
  simp [recordOffscreenSlots]

theorem uiReadSlots_append (l r : List Ev) :
    uiReadSlots (l ++ r) = uiReadSlots l ++ uiReadSlots r := by
  simp [uiReadSlots]

theorem build_ui_slots (st : Impl) (dev : DevState) (pw ph : Nat)
    (htex : (st.offAt st.frame_index).imgui_texture_set = true) :
    (build_ui st dev pw ph).1.frame_index = st.frame_index ∧
    recordOffscreenSlots (build_ui st dev pw ph).2.2 = [] ∧
    uiReadSlots (build_ui st dev pw ph).2.2 = [st.frame_index] := by
  simp only [build_ui]
  by_cases hc : pw ≠ (st.offAt st.frame_index).width ∨
    ph ≠ (st.offAt st.frame_index).height
  · rw [if_pos hc]
    refine ⟨rfl, ?_, ?_⟩ <;>
      simp [recreate_offscreen, destroy_offscreen, Impl.offAt,
        create_offscreen_render_pass_and_sampler, create_offscreen_frame_resources,
        destroy_offscreen_frame_trace, recordOffscreenSlots, uiReadSlots,
        apply_ite (List.filterMap _), List.filterMap_append, ite_self]
  · rw [if_neg hc]
    refine ⟨rfl, ?_, ?_⟩ <;>
      simp [recordOffscreenSlots, uiReadSlots, htex]

theorem draw_frame_slots (st : Impl) (dev : DevState) (acq : VkRes)
    (image : Nat) (pres : VkRes) (out : Impl × DevState × List Ev)
    (hacq : acq ≠ VkRes.outOfDate)
    (hout : draw_frame st dev acq image pres = some out) :
    recordOffscreenSlots out.2.2 = [st.frame_index] ∧
    uiReadSlots out.2.2 = [] := by
  have hmain : ∀ _h : acq = VkRes.success ∨ acq = VkRes.suboptimal,
      recordOffscreenSlots out.2.2 = [st.frame_index] ∧
      uiReadSlots out.2.2 = [] := by
    intro h
    simp only [draw_frame, draw_frame_acquire_proceed st dev acq h,
      draw_frame_record_submit] at hout
    by_cases hc : pres = VkRes.outOfDate ∨ pres = VkRes.suboptimal ∨
        st.framebuffer_resized = true
    · rw [draw_frame_present_stale _ _ _ _ hc] at hout
      injection hout with hout
      subst hout
      exact ⟨by simp [recordOffscreenSlots], by simp [uiReadSlots]⟩
    · by_cases hp : pres = VkRes.success
      · subst hp
        have hrs : st.framebuffer_resized = false := by
          rcases hb : st.framebuffer_resized with _ | _
          · rfl
          · exact absurd (Or.inr (Or.inr hb)) hc
        rw [draw_frame_present_ok st _ image hrs] at hout
        injection hout with hout
        subst hout
        exact ⟨by simp [recordOffscreenSlots], by simp [uiReadSlots]⟩
      · rw [draw_frame_present_err st _ image pres hc hp] at hout
        cases hout
  cases acq with
  | success => exact hmain (Or.inl rfl)
  | suboptimal => exact hmain (Or.inr rfl)
  | outOfDate => exact absurd rfl hacq
  | errorOther =>
    simp only [draw_frame, draw_frame_acquire_err] at hout
    cases hout

/-- C6: in any loop iteration whose acquire does not report out-of-date, the
3D pass records into `offscreen[s % k_frames_in_flight]` (where `s` is the
frame sequence number, i.e. `frame_index = s mod k`) and the UI pass of the
same iteration reads the texture handle of that same slot's instance — never
a different slot's. -/
theorem slot_target_pairing (st : Impl) (dev : DevState) (inp : IterInput)
    (out : Impl × DevState × List Ev) (s : Nat)
    (hfi : st.frame_index = s % k_frames_in_flight)
    (hacq : inp.acq ≠ VkRes.outOfDate)
    (htex : (st.offAt st.frame_index).imgui_texture_set = true)
    (hout : loop_iter st dev inp = some out) :
    recordOffscreenSlots out.2.2 = [s % k_frames_in_flight] ∧
    uiReadSlots out.2.2 = [s % k_frames_in_flight] := by
  simp only [loop_iter] at hout
  cases hdf : draw_frame
      (build_ui { st with framebuffer_resized := st.framebuffer_resized || inp.resize }
        dev inp.px_w inp.px_h).1
      (build_ui { st with framebuffer_resized := st.framebuffer_resized || inp.resize }
        dev inp.px_w inp.px_h).2.1
      inp.acq inp.image inp.pres with
  | none => rw [hdf] at hout; cases hout
  | some r =>
    rw [hdf] at hout
    injection hout with hout
    subst hout
    obtain ⟨hbf, hbr, hbu⟩ := build_ui_slots
      { st with framebuffer_resized := st.framebuffer_resized || inp.resize }
      dev inp.px_w inp.px_h htex
    obtain ⟨hdr, hdu⟩ := draw_frame_slots _ _ _ _ _ _ hacq hdf
    rw [hbf] at hdr
    constructor
    · rw [recordOffscreenSlots_append, hbr, hdr]
      simp [← hfi]
    · rw [uiReadSlots_append, hbu, hdu]
      simp [← hfi]

/-- Witness for C6: the first successful iteration from the post-`init_all`
state records into slot `0 % k_frames_in_flight` and the UI reads slot
`0 % k_frames_in_flight`. -/
theorem slot_target_pairing_witness :
    init_impl.frame_index = 0 % k_frames_in_flight ∧
    recordOffscreenSlots iter_ok_out.2.2 = [0 % k_frames_in_flight] ∧
    uiReadSlots iter_ok_out.2.2 = [0 % k_frames_in_flight] :=
  ⟨rfl,
   slot_target_pairing init_impl init_dev iter_ok iter_ok_out 0 rfl (by decide)
     (by decide) (by decide)⟩

theorem build_ui_frame_index (st : Impl) (dev : DevState) (pw ph : Nat) :
    (build_ui st dev pw ph).1.frame_index = st.frame_index := by
  simp only [build_ui]
  split <;> rfl

theorem build_ui_dev (st : Impl) (dev : DevState) (pw ph : Nat) :
    (build_ui st dev pw ph).2.1 = dev ∨
    (build_ui st dev pw ph).2.1 = dev.waitIdle := by
  simp only [build_ui]
  split
  · exact Or.inr rfl
  · exact Or.inl rfl

theorem step_preserves_DevInv (s t : Sys) (hInv : DevInv s) (hst : Step s t) :
    DevInv t := by
  obtain ⟨hfi, hf0, hf1, hp0, hp1, hsub⟩ := hInv
  cases hst with
  | tick0 h =>
    refine ⟨hfi, ?_, hf1, ?_, hp1, ?_⟩
    · intro _
      show s.dev.pending0 - 1 = 0
      omega
    · show s.dev.pending0 - 1 ≤ 1
      omega
    · intro image hph
      obtain ⟨hsf, hsp⟩ := hsub image hph
      by_cases hz : s.impl.frame_index = 0
      · simp [DevState.pendingAt, hz] at hsp
        exact absurd h (by omega)
      · simp only [DevState.fenceAt, DevState.pendingAt, if_neg hz,
          DevState.completeSlot0] at hsf hsp ⊢
        exact ⟨hsf, hsp⟩
  | tick1 h =>
    refine ⟨hfi, hf0, ?_, hp0, ?_, ?_⟩
    · intro _
      show s.dev.pending1 - 1 = 0
      omega
    · show s.dev.pending1 - 1 ≤ 1
      omega
    · intro image hph
      obtain ⟨hsf, hsp⟩ := hsub image hph
      by_cases hz : s.impl.frame_index = 0
      · simp only [DevState.fenceAt, DevState.pendingAt, if_pos hz,
          DevState.completeSlot1] at hsf hsp ⊢
        exact ⟨hsf, hsp⟩
      · simp [DevState.pendingAt, hz] at hsp
        exact absurd h (by omega)
  | resizeEvent =>
    exact ⟨hfi, hf0, hf1, hp0, hp1, hsub⟩
  | buildUi pw ph hph =>
    have hbf := build_ui_frame_index s.impl s.dev pw ph
    have hor := build_ui_dev s.impl s.dev pw ph
    refine ⟨?_, ?_, ?_, ?_, ?_, fun image hc => by cases hc⟩
    · show (build_ui s.impl s.dev pw ph).1.frame_index < k_frames_in_flight
      rw [hbf]
      exact hfi
    · show (build_ui s.impl s.dev pw ph).2.1.fence0 = true →
        (build_ui s.impl s.dev pw ph).2.1.pending0 = 0
      rcases hor with hd | hd <;> rw [hd]
      · exact hf0
      · intro _
        rfl
    · show (build_ui s.impl s.dev pw ph).2.1.fence1 = true →
        (build_ui s.impl s.dev pw ph).2.1.pending1 = 0
      rcases hor with hd | hd <;> rw [hd]
      · exact hf1
      · intro _
        rfl
    · show (build_ui s.impl s.dev pw ph).2.1.pending0 ≤ 1
      rcases hor with hd | hd <;> rw [hd]
      · exact hp0
      · exact Nat.zero_le 1
    · show (build_ui s.impl s.dev pw ph).2.1.pending1 ≤ 1
      rcases hor with hd | hd <;> rw [hd]
      · exact hp1
      · exact Nat.zero_le 1
  | acquireEarly st1 dev1 tr hph hfe heq =>
    rw [draw_frame_acquire_ood] at heq
    injection heq with h1 h2 h3
    subst h1
    subst h2
    exact ⟨hfi, fun _ => rfl, fun _ => rfl, Nat.zero_le 1, Nat.zero_le 1,
      fun image hc => by cases hc⟩
  | acquireProceed acq image st1 dev1 tr hph hfe heq =>
    have hdev : st1 = s.impl ∧ dev1 = s.dev.resetFenceAt s.impl.frame_index := by
      cases acq with
      | success =>
        rw [draw_frame_acquire_proceed _ _ _ (Or.inl rfl)] at heq
        injection heq with h1 h2 h3
        exact ⟨h1.symm, h2.symm⟩
      | suboptimal =>
        rw [draw_frame_acquire_proceed _ _ _ (Or.inr rfl)] at heq
        injection heq with h1 h2 h3
        exact ⟨h1.symm, h2.symm⟩
      | outOfDate => rw [draw_frame_acquire_ood] at heq; cases heq
      | errorOther => rw [draw_frame_acquire_err] at heq; cases heq
    obtain ⟨rfl, rfl⟩ := hdev
    refine ⟨hfi, ?_, ?_, ?_, ?_, ?_⟩
    · show (s.dev.resetFenceAt s.impl.frame_index).fence0 = true →
        (s.dev.resetFenceAt s.impl.frame_index).pending0 = 0
      by_cases hz : s.impl.frame_index = 0
      · simp [DevState.resetFenceAt, hz]
      · simp only [DevState.resetFenceAt, if_neg hz]
        exact hf0
    · show (s.dev.resetFenceAt s.impl.frame_index).fence1 = true →
        (s.dev.resetFenceAt s.impl.frame_index).pending1 = 0
      by_cases hz : s.impl.frame_index = 0
      · simp only [DevState.resetFenceAt, if_pos hz]
        exact hf1
      · simp [DevState.resetFenceAt, hz]
    · show (s.dev.resetFenceAt s.impl.frame_index).pending0 ≤ 1
      by_cases hz : s.impl.frame_index = 0 <;>
        simp only [DevState.resetFenceAt, if_pos, if_neg, hz, ite_true,
          ite_false] <;> exact hp0
    · show (s.dev.resetFenceAt s.impl.frame_index).pending1 ≤ 1
      by_cases hz : s.impl.frame_index = 0 <;>
        simp only [DevState.resetFenceAt, if_pos, if_neg, hz, ite_true,
          ite_false] <;> exact hp1
    · intro image' hc
      injection hc with hc
      subst hc
      constructor
      · show (s.dev.resetFenceAt s.impl.frame_index).fenceAt
          s.impl.frame_index = false
        by_cases hz : s.impl.frame_index = 0 <;>
          simp [DevState.resetFenceAt, DevState.fenceAt, hz]
      · show (s.dev.resetFenceAt s.impl.frame_index).pendingAt
          s.impl.frame_index = 0
        by_cases hz : s.impl.frame_index = 0 <;>
          simp [DevState.resetFenceAt, DevState.pendingAt, DevState.fenceAt,
            hz] at hfe ⊢
        · exact hf0 hfe
        · exact hf1 hfe
  | acquireFatal acq dev1 tr hph hfe heq =>
    have hdev : dev1 = s.dev.resetFenceAt s.impl.frame_index := by
      cases acq with
      | success =>
        rw [draw_frame_acquire_proceed _ _ _ (Or.inl rfl)] at heq
        cases heq
      | suboptimal =>
        rw [draw_frame_acquire_proceed _ _ _ (Or.inr rfl)] at heq
        cases heq
      | outOfDate => rw [draw_frame_acquire_ood] at heq; cases heq
      | errorOther =>
        rw [draw_frame_acquire_err] at heq
        injection heq with h1 h2
        exact h1.symm
    subst hdev
    refine ⟨hfi, ?_, ?_, ?_, ?_, fun image hc => by cases hc⟩
    · show (s.dev.resetFenceAt s.impl.frame_index).fence0 = true →
        (s.dev.resetFenceAt s.impl.frame_index).pending0 = 0
      by_cases hz : s.impl.frame_index = 0
      · simp [DevState.resetFenceAt, hz]
      · simp only [DevState.resetFenceAt, if_neg hz]
        exact hf0
    · show (s.dev.resetFenceAt s.impl.frame_index).fence1 = true →
        (s.dev.resetFenceAt s.impl.frame_index).pending1 = 0
      by_cases hz : s.impl.frame_index = 0
      · simp only [DevState.resetFenceAt, if_pos hz]
        exact hf1
      · simp [DevState.resetFenceAt, hz]
    · show (s.dev.resetFenceAt s.impl.frame_index).pending0 ≤ 1
      by_cases hz : s.impl.frame_index = 0 <;>
        simp only [DevState.resetFenceAt, if_pos, if_neg, hz, ite_true,
          ite_false] <;> exact hp0
    · show (s.dev.resetFenceAt s.impl.frame_index).pending1 ≤ 1
      by_cases hz : s.impl.frame_index = 0 <;>
        simp only [DevState.resetFenceAt, if_pos, if_neg, hz, ite_true,
          ite_false] <;> exact hp1
  | submitRecord image hph =>
    obtain ⟨hsf, hsp⟩ := hsub image hph
    refine ⟨hfi, ?_, ?_, ?_, ?_, fun image' hc => by cases hc⟩
    · show (draw_frame_record_submit s.impl s.dev image).2.1.fence0 = true →
        (draw_frame_record_submit s.impl s.dev image).2.1.pending0 = 0
      simp only [draw_frame_record_submit]
      by_cases hz : s.impl.frame_index = 0
      · simp [DevState.fenceAt, hz] at hsf
        simp [DevState.submitAt, hz, hsf]
      · simp only [DevState.submitAt, if_neg hz]
        exact hf0
    · show (draw_frame_record_submit s.impl s.dev image).2.1.fence1 = true →
        (draw_frame_record_submit s.impl s.dev image).2.1.pending1 = 0
      simp only [draw_frame_record_submit]
      by_cases hz : s.impl.frame_index = 0
      · simp only [DevState.submitAt, if_pos hz]
        exact hf1
      · simp [DevState.fenceAt, hz] at hsf
        simp [DevState.submitAt, hz, hsf]
    · show (draw_frame_record_submit s.impl s.dev image).2.1.pending0 ≤ 1
      simp only [draw_frame_record_submit]
      by_cases hz : s.impl.frame_index = 0
      · simp [DevState.pendingAt, hz] at hsp
        simp [DevState.submitAt, hz, hsp]
      · simp only [DevState.submitAt, if_neg hz]
        exact hp0
    · show (draw_frame_record_submit s.impl s.dev image).2.1.pending1 ≤ 1
      simp only [draw_frame_record_submit]
      by_cases hz : s.impl.frame_index = 0
      · simp only [DevState.submitAt, if_pos hz]
        exact hp1
      · simp [DevState.pendingAt, hz] at hsp
        simp [DevState.submitAt, hz, hsp]
  | presentOk image pres out hph heq =>
    by_cases hc : pres = VkRes.outOfDate ∨ pres = VkRes.suboptimal ∨
        s.impl.framebuffer_resized = true
    · rw [draw_frame_present_stale _ _ _ _ hc] at heq
      injection heq with heq
      subst heq
      refine ⟨?_, fun _ => rfl, fun _ => rfl, Nat.zero_le 1, Nat.zero_le 1,
        fun image' hcc => by cases hcc⟩
      show (s.impl.frame_index + 1) % k_frames_in_flight < k_frames_in_flight
      simp only [k_frames_in_flight]
      omega
    · by_cases hp : pres = VkRes.success
      · subst hp
        have hrs : s.impl.framebuffer_resized = false := by
          rcases hb : s.impl.framebuffer_resized with _ | _
          · rfl
          · exact absurd (Or.inr (Or.inr hb)) hc
        rw [draw_frame_present_ok _ _ _ hrs] at heq
        injection heq with heq
        subst heq
        refine ⟨?_, hf0, hf1, hp0, hp1, fun image' hcc => by cases hcc⟩
        show (s.impl.frame_index + 1) % k_frames_in_flight < k_frames_in_flight
        simp only [k_frames_in_flight]
        omega
      · rw [draw_frame_present_err _ _ _ _ hc hp] at heq
        cases heq
  | presentFatal image pres hph heq =>
    exact ⟨hfi, hf0, hf1, hp0, hp1, fun image' hc => by cases hc⟩

theorem init_DevInv : DevInv init_sys :=
  ⟨by decide, fun _ => rfl, fun _ => rfl, Nat.zero_le 1, Nat.zero_le 1,
   fun image hc => by cases hc⟩

theorem reaches_DevInv (s : Sys) (h : Reaches init_sys s) : DevInv s := by
  induction h with
  | refl => exact init_DevInv
  | tail a b hr hst ih => exact step_preserves_DevInv _ _ ih hst

/-- C5: backpressure over arbitrary interleavings of frame-loop phases and
device completions: in every state reachable from startup, each slot has at
most one unacknowledged submission, and the total number of simultaneously
unacknowledged submissions never exceeds `k_frames_in_flight`; a slot's fence
gate guards its reuse (`Step.acquireProceed` is enabled only when the current
slot's `in_flight` fence is signaled). -/
theorem backpressure_bounded (s : Sys) (h : Reaches init_sys s) :
    s.dev.pending0 ≤ 1 ∧ s.dev.pending1 ≤ 1 ∧
    s.dev.pending0 + s.dev.pending1 ≤ k_frames_in_flight := by
  obtain ⟨-, -, -, hp0, hp1, -⟩ := reaches_DevInv s h
  refine ⟨hp0, hp1, ?_⟩
  simp only [k_frames_in_flight]
  omega

/-- Witness for C5 at the initial state. -/
theorem backpressure_bounded_witness :
    init_sys.dev.pending0 ≤ 1 ∧ init_sys.dev.pending1 ≤ 1 ∧
    init_sys.dev.pending0 + init_sys.dev.pending1 ≤ k_frames_in_flight :=
  backpressure_bounded init_sys (Reaches.refl init_sys)

theorem step_preserves_StuckInv (s t : Sys) (hS : StuckInv s) (hst : Step s t) :
    StuckInv t := by
  obtain ⟨hph, hfi, hf0, hp0⟩ := hS
  cases hst with
  | tick0 h => exact absurd h (by omega)
  | tick1 h => exact ⟨hph, hfi, hf0, hp0⟩
  | resizeEvent => exact ⟨hph, hfi, hf0, hp0⟩
  | buildUi pw ph hphase =>
    refine ⟨rfl, ?_, ?_, ?_⟩
    · show (build_ui s.impl s.dev pw ph).1.frame_index = 0
      rw [build_ui_frame_index]
      exact hfi
    · show (build_ui s.impl s.dev pw ph).2.1.fence0 = false
      rcases build_ui_dev s.impl s.dev pw ph with hd | hd <;> rw [hd]
      · exact hf0
      · show (if 1 ≤ s.dev.pending0 then true else s.dev.fence0) = false
        rw [hp0]
        simp [hf0]
    · show (build_ui s.impl s.dev pw ph).2.1.pending0 = 0
      rcases build_ui_dev s.impl s.dev pw ph with hd | hd <;> rw [hd]
      · exact hp0
      · rfl
  | acquireEarly st1 dev1 tr hphase hfe heq =>
    rw [hfi] at hfe
    simp only [DevState.fenceAt, if_pos rfl] at hfe
    exact absurd hfe (by simp [hf0])
  | acquireProceed acq image st1 dev1 tr hphase hfe heq =>
    rw [hfi] at hfe
    simp only [DevState.fenceAt, if_pos rfl] at hfe
    exact absurd hfe (by simp [hf0])
  | acquireFatal acq dev1 tr hphase hfe heq =>
    rw [hfi] at hfe
    simp only [DevState.fenceAt, if_pos rfl] at hfe
    exact absurd hfe (by simp [hf0])
  | submitRecord image hphase =>
    rw [hph] at hphase
    cases hphase
  | presentOk image pres out hphase heq =>
    rw [hph] at hphase
    cases hphase
  | presentFatal image pres hphase heq =>
    rw [hph] at hphase
    cases hphase

/-- The first iteration's acquire phase can report out-of-date and step the
system from startup into `stale_sys`. -/
theorem init_steps_to_stale : Step init_sys stale_sys :=
  Step.acquireEarly init_sys stale_impl stale_dev
    [Ev.waitFence 0, Ev.resetFence 0, Ev.acquireImage, Ev.deviceWaitIdle,
     Ev.destroySwapchainRes, Ev.createSwapchainRes] rfl (by decide) (by decide)

/-- C4 (behavior of the code at the failing input): once an iteration's
acquire reports out-of-date, the early return leaves the current slot's
`in_flight` fence reset with no submission pending that could ever signal it;
in every state reachable from that point the thread is still at the top of the
loop with slot 0's fence unsignaled and nothing pending, so the next
iteration's `vkWaitForFences` can never complete: no later iteration renders
or presents, contradicting the claimed recovery at iteration `i+1`. -/
theorem stale_acquire_blocks_forever (s : Sys) (h : Reaches stale_sys s) :
    s.phase = Phase.ready ∧ s.impl.frame_index = 0 ∧
    s.dev.fence0 = false ∧ s.dev.pending0 = 0 := by
  induction h with
  | refl => exact ⟨rfl, rfl, rfl, rfl⟩
  | tail a b hr hst ih => exact step_preserves_StuckInv _ _ ih hst

/-- Witness for C4 at `stale_sys` itself. -/
theorem stale_acquire_blocks_forever_witness :
    stale_sys.phase = Phase.ready ∧ stale_sys.impl.frame_index = 0 ∧
    stale_sys.dev.fence0 = false ∧ stale_sys.dev.pending0 = 0 :=
  stale_acquire_blocks_forever stale_sys (Reaches.refl stale_sys)

end VkMvp
